import Mathlib

/-!
Shallow embedding of the ThumbnailAI backend generation controller
(`src/backend/src/controllers/generate.controller.ts`): the `generateImages`
submit → poll → download → upload-and-save pipeline, plus the
`deleteThumbnail` and `getUserThumbnails` endpoints.

External collaborators (the Replicate HTTP API, Cloudinary uploads, image
downloads) are modelled as oracles packaged in an `Env`: each outbound call's
outcome is a field of `Env`, and the embedding replays the controller's
control flow over those outcomes.  The MongoDB query operators used by the
controller (`findOne`, `deleteOne`, `find().sort().limit()`) are given their
standard MongoDB meaning over a list of documents in insertion order.
The persistence collaborator's `save()` is modelled as always succeeding,
matching the spec's §6 contract for the excluded persistence collaborator.
-/

namespace ThumbnailAI

/-- One Replicate poll response as read by the poll loop:
`poll.data.status`, `poll.data.output`, `poll.data.error`. -/
structure Poll where
  status : String
  output : Option (List String)
  error : Option String
deriving DecidableEq

/-- One iteration of the poll loop, observed from outside: `elapsed` is the
wall-clock time since submission (`Date.now() - startTime`, in ms) at the
moment of the deadline check at the top of the loop body, and `poll` is the
response the iteration's status query would receive. -/
structure Tick where
  elapsed : Nat
  poll : Poll
deriving DecidableEq

/-- `prediction.data` of the submission response: id and initial status. -/
structure Submission where
  id : String
  status : String
deriving DecidableEq

/-- The external world of one `generateImages` invocation: the outcome each
outbound call would have, as an oracle. -/
structure Env where
  /-- is `REPLICATE_API_TOKEN` configured? -/
  tokenPresent : Bool
  /-- outcome of the Cloudinary reference-image upload (used only when the
  request carries an uploaded file). -/
  refUpload : Except Unit String
  /-- outcome of `POST /v1/predictions` (the one submission call). -/
  submit : Except String Submission
  /-- the trace of poll-loop iterations the invocation would observe. -/
  ticks : List Tick
  /-- outcome of the best-effort `POST .../cancel` call. -/
  cancelResult : Except Unit Unit
  /-- downloading an output URL: `some` base64 payload, or `none` on failure. -/
  fetch : String → Option String
  /-- `cloudinary.uploader.upload` on a data URI: `secure_url`, or a thrown
  error message. -/
  upload : String → Except String String

/-- The request body and auth context of `generateImages`. An absent JSON
field and an empty string are both falsy in the controller's checks, so both
are modelled as `""`. -/
structure Req where
  prompt : String
  queryRewrite : String
  userId : Option String
  hasFile : Bool

/-- The Replicate configuration constants `REPLICATE_POLL_INTERVAL` and
`REPLICATE_TIMEOUT` (env-configurable; defaults 2000 and 120000 ms). -/
structure Config where
  pollIntervalMs : Nat
  timeoutMs : Nat
deriving DecidableEq

/-- `predictionStatus === "starting" || predictionStatus === "processing"`. -/
def inProgress (s : String) : Bool :=
  s == "starting" || s == "processing"

/-- Result of the poll loop. `exhausted` means the observed trace ended while
the prediction was still in progress (the real loop would keep polling). -/
inductive PollOutcome
  | timedOut
  | exhausted
  | terminal (status : String) (output : Option (List String)) (error : Option String)
deriving DecidableEq

/-- Observable effects of one poll-loop run: its outcome, the number of
status queries issued, the duration of every sleep performed (in order), and
the number of cancel requests issued. -/
structure PollState where
  outcome : PollOutcome
  queries : Nat
  sleeps : List Nat
  cancels : Nat
deriving DecidableEq

/-- The `while (status === "starting" || status === "processing")` loop of
`generateImages` (controller lines 210-233): at the top of each iteration
check `Date.now() - startTime > REPLICATE_TIMEOUT` (cancel and bail out on
timeout), otherwise sleep `REPLICATE_POLL_INTERVAL`, issue one status query
and continue with its status/output/error. -/
def pollLoop (timeoutMs intervalMs : Nat) :
    List Tick → String → Option (List String) → Option String → PollState
  | [], st, out, er =>
    if inProgress st then ⟨.exhausted, 0, [], 0⟩ else ⟨.terminal st out er, 0, [], 0⟩
  | t :: rest, st, out, er =>
    if inProgress st then
      if timeoutMs < t.elapsed then
        ⟨.timedOut, 0, [], 1⟩
      else
        let s := pollLoop timeoutMs intervalMs rest t.poll.status t.poll.output t.poll.error
        ⟨s.outcome, s.queries + 1, intervalMs :: s.sleeps, s.cancels⟩
    else ⟨.terminal st out er, 0, [], 0⟩

/-- `.catch(() => ())` on the cancel request: the outcome is discarded. -/
def bestEffortCancel (r : Except Unit Unit) : Unit :=
  match r with
  | .ok _ => ()
  | .error _ => ()

/-- characters after the first comma (start of `s.split(",")[1]`). -/
def afterComma : List Char → List Char
  | [] => []
  | c :: cs => if c = ',' then cs else afterComma cs

/-- characters before the next comma (end of `s.split(",")[1]`). -/
def beforeComma : List Char → List Char
  | [] => []
  | c :: cs => if c = ',' then [] else c :: beforeComma cs

/-- `s.split(",")[1]`: the component between the first and second comma. -/
def payloadOf (s : String) : String :=
  String.mk (beforeComma (afterComma s.toList))

/-- Wrap a base64 payload as the data URI the controller builds. -/
def dataUri (b : String) : String :=
  "data:image/png;base64," ++ b

/-- The string actually passed to `cloudinary.uploader.upload` for a data-URI
source `src`: `"data:image/png;base64," + Buffer.from(src.split(",")[1],
"base64").toString("base64")`.  Image bytes are abstracted as their base64
text, so decode-then-reencode is the identity on the extracted payload. -/
def uploadSrc (src : String) : String :=
  dataUri (payloadOf src)

/-- The download loop (controller lines 243-251): one GET per output URL,
pushing a data URI per success; a failed download is logged and skipped. -/
def downloadAll (fetch : String → Option String) (urls : List String) : List String :=
  urls.filterMap (fun u => (fetch u).map dataUri)

/-- A saved `Thumbnail` document as constructed by the store loop. -/
structure Rec where
  userId : String
  prompt : String
  imageUrl : String
  originalImageUrl : Option String
  queryRewrite : Option String
deriving DecidableEq

/-- The HTTP response of a `generateImages` invocation.  `pending` is the
model artifact for a trace that ended while still polling. -/
inductive Resp
  | badRequest (msg : String)
  | unauthorized
  | refUploadFailed
  | configMissing
  | genFailed (details : String)
  | timeout504
  | noImageData
  | ok (urls : List String)
  | internalError (msg : String)
  | processingFailed
  | pending
deriving DecidableEq

/-- does `s` contain `"c_fill_pad"` as a substring? -/
def matchesAt : List Char → List Char → Bool
  | [], _ => true
  | _ :: _, [] => false
  | p :: ps, c :: cs => p = c && matchesAt ps cs

/-- substring search over character lists. -/
def containsSub (pat : List Char) : List Char → Bool
  | [] => matchesAt pat []
  | c :: cs => matchesAt pat (c :: cs) || containsSub pat cs

/-- the catch block of `generateImages` (lines 290-311), for a thrown
`Error` with message `e`. -/
def catchResp (e : String) : Resp :=
  if e != "" && containsSub "c_fill_pad".toList e.toList then .processingFailed
  else .internalError e

/-- Everything observable about one `generateImages` invocation: the HTTP
response, the `Thumbnail` documents saved (in save order — these persist even
when the response is an error), the number of submission calls, status
queries and cancel requests issued, every sleep performed, and the final
value of the `base64s` program variable (the successfully downloaded
images). -/
structure RunResult where
  response : Resp
  records : List Rec
  submits : Nat
  queries : Nat
  sleeps : List Nat
  cancels : Nat
  base64s : List String
deriving DecidableEq

/-- a run that ends before the submission call. -/
def early (r : Resp) : RunResult :=
  ⟨r, [], 0, 0, [], 0, []⟩

/-- `queryRewrite || prompt`. -/
def finalPromptOf (req : Req) : String :=
  if req.queryRewrite = "" then req.prompt else req.queryRewrite

/-- `queryRewrite || undefined` as stored in the document. -/
def qrOf (req : Req) : Option String :=
  if req.queryRewrite = "" then none else some req.queryRewrite

/-- The reference-image step (lines 139-159): upload the file to Cloudinary
when present; its failure aborts the invocation. -/
def refStep (env : Env) (req : Req) : Except Unit (Option String) :=
  if req.hasFile then
    match env.refUpload with
    | .ok url => .ok (some url)
    | .error e => .error e
  else .ok none

/-- The upload-and-save loop (lines 257-287): for each data URI, upload it to
Cloudinary, push the `secure_url`, and save one `Thumbnail` document.  A
thrown upload error aborts the loop (the third component carries the
message); documents saved before the abort are kept. -/
def uploadLoop (upload : String → Except String String) (uid fp : String)
    (orig qr : Option String) : List String → List String × List Rec × Option String
  | [] => ([], [], none)
  | src :: rest =>
    match upload (uploadSrc src) with
    | .error e => ([], [], some e)
    | .ok url =>
      let s := uploadLoop upload uid fp orig qr rest
      (url :: s.1, ⟨uid, fp, url, orig, qr⟩ :: s.2.1, s.2.2)

/-- assemble the run once the poll loop has finished. -/
def runUpload (upload : String → Except String String) (uid fp : String)
    (orig qr : Option String) (ps : PollState) (b64s : List String) : RunResult :=
  match uploadLoop upload uid fp orig qr b64s with
  | (urls, recs, none) => ⟨.ok urls, recs, 1, ps.queries, ps.sleeps, ps.cancels, b64s⟩
  | (_, recs, some e) => ⟨catchResp e, recs, 1, ps.queries, ps.sleeps, ps.cancels, b64s⟩

/-- the `predictionStatus !== "succeeded" || !predictionOutput?.length` check
(line 235) followed by download (243-254) and upload (257-287). -/
def runTerminal (fetch : String → Option String) (upload : String → Except String String)
    (uid fp : String) (orig qr : Option String) (ps : PollState)
    (st : String) (out : Option (List String)) (er : Option String) : RunResult :=
  if st != "succeeded" || (out.getD []).isEmpty then
    ⟨.genFailed (er.getD ("Replicate status: " ++ st)), [], 1,
      ps.queries, ps.sleeps, ps.cancels, []⟩
  else
    let b64s := downloadAll fetch (out.getD [])
    if b64s.isEmpty then
      ⟨.noImageData, [], 1, ps.queries, ps.sleeps, ps.cancels, b64s⟩
    else runUpload upload uid fp orig qr ps b64s

/-- the invocation from the submission call onwards. -/
def runPoll (cfg : Config) (env : Env) (uid fp : String)
    (orig qr : Option String) (sub : Submission) : RunResult :=
  let ps := pollLoop cfg.timeoutMs cfg.pollIntervalMs env.ticks sub.status none none
  match ps.outcome with
  | .exhausted => ⟨.pending, [], 1, ps.queries, ps.sleeps, ps.cancels, []⟩
  | .timedOut =>
    let _ := bestEffortCancel env.cancelResult
    ⟨.timeout504, [], 1, ps.queries, ps.sleeps, ps.cancels, []⟩
  | .terminal st out er => runTerminal env.fetch env.upload uid fp orig qr ps st out er

/-- `generateImages` (controller lines 124-312): validation, reference-image
upload, configuration check, submission, poll loop, download, upload+save. -/
def generateImages (cfg : Config) (env : Env) (req : Req) : RunResult :=
  if req.prompt = "" then early (.badRequest "Prompt is required")
  else
    match req.userId with
    | none => early .unauthorized
    | some uid =>
      match refStep env req with
      | .error _ => early .refUploadFailed
      | .ok orig =>
        if env.tokenPresent then
          match env.submit with
          | .error e => ⟨catchResp e, [], 1, 0, [], 0, []⟩
          | .ok sub => runPoll cfg env uid (finalPromptOf req) orig (qrOf req) sub
        else early .configMissing

/-- Spec-side helper: the prefix of data URIs that upload successfully, with
their resulting URLs; the first upload failure stops the loop. -/
def uploadedUrls (upload : String → Except String String) : List String → List String
  | [] => []
  | src :: rest =>
    match upload (uploadSrc src) with
    | .ok url => url :: uploadedUrls upload rest
    | .error _ => []

/-- Spec-side helper: the stored location a provider output URL should end
up at — download it, wrap it, upload it. -/
def expectedUrl (env : Env) (u : String) : Option String :=
  (env.fetch u).bind (fun b => (env.upload (uploadSrc (dataUri b))).toOption)

/-! ### The OpenRouter variant of the store loop (src/unnamed/part_007)

In that variant `base64s` mixes inline data URIs (matched out of the chat
completion text) and remote URLs (`message.images`), in that order.  Inside
its store loop a source starting with `"data:image"` is decoded in place and
any other source is downloaded — with no per-source catch, so a failed
download or upload throws out of the loop. -/

/-- materialize one source of the part_007 store loop into base64 bytes. -/
def materializeSrc (fetch : String → Except String String) (src : String) :
    Except String String :=
  if matchesAt "data:image".toList src.toList then .ok (payloadOf src)
  else fetch src

/-- the part_007 store loop (its lines 246-282): materialize, upload to
Cloudinary, save one document per source, in source order; any throw aborts
the loop, keeping the documents already saved. -/
def orStoreLoop (fetch upload : String → Except String String) (uid fp : String)
    (orig qr : Option String) : List String → List String × List Rec × Option String
  | [] => ([], [], none)
  | src :: rest =>
    match (materializeSrc fetch src).bind (fun b => upload (dataUri b)) with
    | .error e => ([], [], some e)
    | .ok url =>
      let s := orStoreLoop fetch upload uid fp orig qr rest
      (url :: s.1, ⟨uid, fp, url, orig, qr⟩ :: s.2.1, s.2.2)

/-- Spec-side helper for the part_007 loop: where source `s` should be
stored. -/
def orExpectedUrl (fetch upload : String → Except String String) (s : String) :
    Option String :=
  ((materializeSrc fetch s).bind (fun b => upload (dataUri b))).toOption

/-! ### The thumbnail collection endpoints (controller lines 480-501)

`Thumbnail` documents live in a MongoDB collection, modelled as a list in
insertion order; `findOne` returns the first document matching the filter,
`deleteOne` removes the first document matching the filter, and
`find().sort(createdAt desc).limit(50)` filters, sorts by `createdAt`
descending and truncates to 50. -/

/-- A stored `Thumbnail` document, with its `_id` and `createdAt`. -/
structure Thumb where
  id : String
  userId : String
  prompt : String
  imageUrl : String
  createdAt : Nat
deriving DecidableEq

/-- `Thumbnail.findOne(\x7b _id: tid, userId: uid \x7d)`. -/
def dbFindOne (db : List Thumb) (tid uid : String) : Option Thumb :=
  db.find? (fun t => t.id == tid && t.userId == uid)

/-- `Thumbnail.deleteOne(\x7b _id: tid \x7d)`. -/
def dbDeleteOne (db : List Thumb) (tid : String) : List Thumb :=
  db.eraseP (fun t => t.id == tid)

/-- Response of `deleteThumbnail`. -/
inductive DelResp
  | unauthorized
  | notFound
  | deleted
deriving DecidableEq

/-- `deleteThumbnail` (controller lines 487-501): look the thumbnail up by
id AND owner; 404 when absent; otherwise delete it by id.  Returns the
response and the collection afterwards.  (The Cloudinary asset deletion is a
side effect on the CDN, not on the collection.) -/
def deleteThumbnail (db : List Thumb) (userId : Option String) (tid : String) :
    DelResp × List Thumb :=
  match userId with
  | none => (.unauthorized, db)
  | some uid =>
    match dbFindOne db tid uid with
    | none => (.notFound, db)
    | some _ => (.deleted, dbDeleteOne db tid)

/-- descending `createdAt` order used by `.sort(\x7b createdAt: -1 \x7d)`. -/
def newerFirst (a b : Thumb) : Bool :=
  decide (b.createdAt ≤ a.createdAt)

/-- `getUserThumbnails` (controller lines 480-485):
`Thumbnail.find(\x7b userId \x7d).sort(\x7b createdAt: -1 \x7d).limit(50)`;
`none` is the 401 response. -/
def getUserThumbnails (db : List Thumb) (userId : Option String) :
    Option (List Thumb) :=
  match userId with
  | none => none
  | some uid =>
    some (((db.filter (fun t => t.userId == uid)).mergeSort newerFirst).take 50)

/-! ### Environment updates and concrete test fixtures -/

/-- replace the observed poll trace, all else unchanged. -/
def setTicks (env : Env) (l : List Tick) : Env :=
  ⟨env.tokenPresent, env.refUpload, env.submit, l, env.cancelResult, env.fetch, env.upload⟩

/-- replace the cancel-call outcome, all else unchanged. -/
def setCancel (env : Env) (c : Except Unit Unit) : Env :=
  ⟨env.tokenPresent, env.refUpload, env.submit, env.ticks, c, env.fetch, env.upload⟩

/-- the default configuration: 2000 ms poll interval, 120000 ms timeout. -/
def cfg0 : Config := ⟨2000, 120000⟩

/-- a provider download oracle with two fetchable output URLs. -/
def okFetch : String → Option String :=
  fun u => if u = "u1" then some "AAA" else if u = "u2" then some "BBB" else none

/-- a Cloudinary upload oracle that always succeeds. -/
def okUpload : String → Except String String :=
  fun s => .ok ("cdn/" ++ s)

/-- a Cloudinary upload oracle that succeeds on the first image and throws on
any other. -/
def badUpload : String → Except String String :=
  fun s => if s = "data:image/png;base64,AAA" then .ok "url1" else .error "boom"

/-- a happy-path environment: one in-progress tick, then success with two
output URLs, both downloadable and uploadable. -/
def envOk : Env :=
  ⟨true, .ok "ref", .ok ⟨"id1", "starting"⟩,
    [⟨1000, ⟨"succeeded", some ["u1", "u2"], none⟩⟩], .ok (), okFetch, okUpload⟩

/-- a trace whose first deadline check already exceeds the timeout. -/
def envTimeout : Env := setTicks envOk [⟨200000, ⟨"processing", none, none⟩⟩]

/-- a trace whose first poll reports the prediction failed. -/
def envFail : Env := setTicks envOk [⟨1000, ⟨"failed", none, some "NSFW"⟩⟩]

/-- the happy-path environment, with the upload of the second image
throwing. -/
def envAbort : Env :=
  ⟨true, .ok "ref", .ok ⟨"id1", "starting"⟩,
    [⟨1000, ⟨"succeeded", some ["u1", "u2"], none⟩⟩], .ok (), okFetch, badUpload⟩

/-- the happy-path environment, with every output download failing. -/
def envNoFetch : Env :=
  ⟨true, .ok "ref", .ok ⟨"id1", "starting"⟩,
    [⟨1000, ⟨"succeeded", some ["u1", "u2"], none⟩⟩], .ok (), fun _ => none, okUpload⟩

/-- the happy-path environment, with the submission call itself throwing. -/
def envSubmitErr : Env :=
  ⟨true, .ok "ref", .error "ECONNRESET",
    [⟨1000, ⟨"succeeded", some ["u1", "u2"], none⟩⟩], .ok (), okFetch, okUpload⟩

/-- a valid request with a rewritten prompt and no reference file. -/
def reqOk : Req := ⟨"p", "rw", some "user1", false⟩

/-- a valid request with no rewritten prompt. -/
def reqNoRw : Req := ⟨"p", "", some "user1", false⟩

/-- a two-user thumbnail collection. -/
def dbW : List Thumb :=
  [⟨"a", "u1", "p1", "i1", 5⟩, ⟨"b", "u2", "p2", "i2", 7⟩]

/-- a throwing download oracle for the part_007 loop with one fetchable
remote URL. -/
def orFetch : String → Except String String :=
  fun u => if u = "r1" then .ok "CCC" else .error "not found"

/-- an always-succeeding upload oracle for the part_007 loop. -/
def orUp : String → Except String String :=
  fun s => .ok ("cdn/" ++ s)

/-- a part_007 source list mixing one inline data URI and one remote URL. -/
def orSrcs : List String := ["data:image/png;base64,XYZ", "r1"]

/-! ### Poll-loop lemmas -/

/-- With a non-in-progress status the loop body never runs. -/
theorem pollLoop_done (timeoutMs intervalMs : Nat) (ticks : List Tick)
    (st : String) (out : Option (List String)) (er : Option String)
    (h : inProgress st = false) :
    pollLoop timeoutMs intervalMs ticks st out er = ⟨.terminal st out er, 0, [], 0⟩ := by
  cases ticks <;> simp [pollLoop, h]

/-- Every sleep of a poll-loop run lasts exactly the configured fixed
interval, one sleep per status query. -/
theorem pollLoop_sleeps (timeoutMs intervalMs : Nat) (ticks : List Tick) :
    ∀ st out er,
      (pollLoop timeoutMs intervalMs ticks st out er).sleeps
        = List.replicate (pollLoop timeoutMs intervalMs ticks st out er).queries
            intervalMs := by
  induction ticks with
  | nil =>
    intro st out er
    cases h : inProgress st <;> simp [pollLoop, h]
  | cons t rest ih =>
    intro st out er
    cases h : inProgress st
    · simp [pollLoop, h]
    · by_cases hto : timeoutMs < t.elapsed
      · simp [pollLoop, h, hto]
      · simp [pollLoop, h, hto, ih, List.replicate_succ]

/-- Closed form of a run that hits the deadline: in-progress polls up to the
first check whose elapsed time exceeds the timeout, then stop — no poll on
the timed-out iteration, one cancel. -/
theorem pollLoop_timeout (timeoutMs intervalMs : Nat) (pre : List Tick) (t : Tick)
    (post : List Tick) :
    ∀ st out er, inProgress st = true →
      (∀ u ∈ pre, u.elapsed ≤ timeoutMs ∧ inProgress u.poll.status = true) →
      timeoutMs < t.elapsed →
      pollLoop timeoutMs intervalMs (pre ++ t :: post) st out er
        = ⟨.timedOut, pre.length, List.replicate pre.length intervalMs, 1⟩ := by
  induction pre with
  | nil =>
    intro st out er hst _ ht
    simp [pollLoop, hst, ht]
  | cons u pre ih =>
    intro st out er hst hpre ht
    have hu := hpre u (by simp)
    have hrest : ∀ v ∈ pre, v.elapsed ≤ timeoutMs ∧ inProgress v.poll.status = true :=
      fun v hv => hpre v (by simp [hv])
    have : ¬ timeoutMs < u.elapsed := Nat.not_lt.mpr hu.1
    simp [pollLoop, hst, this, ih u.poll.status u.poll.output u.poll.error hu.2 hrest ht,
      List.replicate_succ]

/-- Closed form of a run that observes a terminal status at poll `pre.length`
(0-based index `pre.length` is the `pre.length + 1`-st query): the loop
issues exactly the polls up to and including the terminal one, then stops;
no cancel. -/
theorem pollLoop_terminal (timeoutMs intervalMs : Nat) (pre : List Tick) (t : Tick)
    (post : List Tick) :
    ∀ st out er, inProgress st = true →
      (∀ u ∈ pre, u.elapsed ≤ timeoutMs ∧ inProgress u.poll.status = true) →
      t.elapsed ≤ timeoutMs → inProgress t.poll.status = false →
      pollLoop timeoutMs intervalMs (pre ++ t :: post) st out er
        = ⟨.terminal t.poll.status t.poll.output t.poll.error, pre.length + 1,
            List.replicate (pre.length + 1) intervalMs, 0⟩ := by
  induction pre with
  | nil =>
    intro st out er hst _ hle hterm
    have : ¬ timeoutMs < t.elapsed := Nat.not_lt.mpr hle
    simp [pollLoop, hst, this, pollLoop_done _ _ _ _ _ _ hterm]
  | cons u pre ih =>
    intro st out er hst hpre hle hterm
    have hu := hpre u (by simp)
    have hrest : ∀ v ∈ pre, v.elapsed ≤ timeoutMs ∧ inProgress v.poll.status = true :=
      fun v hv => hpre v (by simp [hv])
    have : ¬ timeoutMs < u.elapsed := Nat.not_lt.mpr hu.1
    simp [pollLoop, hst, this,
      ih u.poll.status u.poll.output u.poll.error hu.2 hrest hle hterm,
      List.replicate_succ]

/-! ### Upload-loop lemmas -/

/-- The documents saved by the store loop are exactly one per uploaded image,
in upload order, carrying the resulting `secure_url`s. -/
theorem uploadLoop_map_imageUrl (upload : String → Except String String)
    (uid fp : String) (orig qr : Option String) (l : List String) :
    (uploadLoop upload uid fp orig qr l).2.1.map Rec.imageUrl
      = uploadedUrls upload l := by
  induction l with
  | nil => rfl
  | cons src rest ih =>
    cases h : upload (uploadSrc src) <;>
      simp [uploadLoop, uploadedUrls, h, ih]

/-- Every document saved by the store loop carries the request's data. -/
theorem uploadLoop_fields (upload : String → Except String String)
    (uid fp : String) (orig qr : Option String) (l : List String) :
    ∀ r ∈ (uploadLoop upload uid fp orig qr l).2.1,
      r.userId = uid ∧ r.prompt = fp ∧ r.originalImageUrl = orig ∧ r.queryRewrite = qr := by
  induction l with
  | nil => intro r hr; simp [uploadLoop] at hr
  | cons src rest ih =>
    intro r hr
    cases h : upload (uploadSrc src) <;> simp [uploadLoop, h] at hr
    · rcases hr with hr | hr
      · simp [hr]
      · exact ih r hr

/-- When every upload succeeds the loop completes without aborting and saves
one document per source. -/
theorem uploadLoop_all_ok (upload : String → Except String String)
    (uid fp : String) (orig qr : Option String) (l : List String)
    (h : ∀ s ∈ l, ∃ u, upload (uploadSrc s) = .ok u) :
    (uploadLoop upload uid fp orig qr l).2.2 = none
      ∧ (uploadLoop upload uid fp orig qr l).2.1.length = l.length := by
  induction l with
  | nil => simp [uploadLoop]
  | cons src rest ih =>
    obtain ⟨u, hu⟩ := h src (by simp)
    have := ih (fun s hs => h s (by simp [hs]))
    simp [uploadLoop, hu, this.1, this.2]

/-! ### Run-level invariants -/

/-- The four run invariants, proved for the after-upload stage. -/
theorem runUpload_invariants (upload : String → Except String String)
    (uid fp : String) (orig qr : Option String) (ps : PollState) (b64s : List String) :
    ((runUpload upload uid fp orig qr ps b64s).records.map Rec.imageUrl
        = uploadedUrls upload (runUpload upload uid fp orig qr ps b64s).base64s)
  ∧ (∀ r ∈ (runUpload upload uid fp orig qr ps b64s).records,
        r.userId = uid ∧ r.prompt = fp ∧ r.originalImageUrl = orig ∧ r.queryRewrite = qr)
  ∧ (runUpload upload uid fp orig qr ps b64s).submits = 1
  ∧ ((∃ urls, (runUpload upload uid fp orig qr ps b64s).response = Resp.ok urls)
      ∨ (∃ e, (runUpload upload uid fp orig qr ps b64s).response = catchResp e)) := by
  rcases h : uploadLoop upload uid fp orig qr b64s with ⟨urls, recs, ab⟩
  have hm := uploadLoop_map_imageUrl upload uid fp orig qr b64s
  have hf := uploadLoop_fields upload uid fp orig qr b64s
  rw [h] at hm hf
  cases ab <;> simp_all [runUpload, h]

/-- The four run invariants, proved for the after-poll stage. -/
theorem runTerminal_invariants (fetch : String → Option String)
    (upload : String → Except String String) (uid fp : String)
    (orig qr : Option String) (ps : PollState) (st : String)
    (out : Option (List String)) (er : Option String) :
    ((runTerminal fetch upload uid fp orig qr ps st out er).records.map Rec.imageUrl
        = uploadedUrls upload (runTerminal fetch upload uid fp orig qr ps st out er).base64s)
  ∧ (∀ r ∈ (runTerminal fetch upload uid fp orig qr ps st out er).records,
        r.userId = uid ∧ r.prompt = fp ∧ r.originalImageUrl = orig ∧ r.queryRewrite = qr)
  ∧ (runTerminal fetch upload uid fp orig qr ps st out er).submits = 1
  ∧ ((runTerminal fetch upload uid fp orig qr ps st out er).records = []
      ∨ (∃ urls, (runTerminal fetch upload uid fp orig qr ps st out er).response = Resp.ok urls)
      ∨ (∃ e, (runTerminal fetch upload uid fp orig qr ps st out er).response = catchResp e)) := by
  unfold runTerminal
  by_cases h1 : (st != "succeeded" || (out.getD []).isEmpty) = true
  · simp [h1, uploadedUrls]
  · simp only [h1]
    by_cases h2 : (downloadAll fetch (out.getD [])).isEmpty = true
    · rw [List.isEmpty_iff] at h2
      simp [h2, uploadedUrls]
    · have := runUpload_invariants upload uid fp orig qr ps (downloadAll fetch (out.getD []))
      simp only [h2, if_false, Bool.false_eq_true, if_neg]
      exact ⟨this.1, this.2.1, this.2.2.1, Or.inr this.2.2.2⟩

/-- The four run invariants, proved for the whole post-submission stage. -/
theorem runPoll_invariants (cfg : Config) (env : Env) (uid fp : String)
    (orig qr : Option String) (sub : Submission) :
    ((runPoll cfg env uid fp orig qr sub).records.map Rec.imageUrl
        = uploadedUrls env.upload (runPoll cfg env uid fp orig qr sub).base64s)
  ∧ (∀ r ∈ (runPoll cfg env uid fp orig qr sub).records,
        r.userId = uid ∧ r.prompt = fp ∧ r.originalImageUrl = orig ∧ r.queryRewrite = qr)
  ∧ (runPoll cfg env uid fp orig qr sub).submits = 1
  ∧ ((runPoll cfg env uid fp orig qr sub).records = []
      ∨ (∃ urls, (runPoll cfg env uid fp orig qr sub).response = Resp.ok urls)
      ∨ (∃ e, (runPoll cfg env uid fp orig qr sub).response = catchResp e)) := by
  unfold runPoll
  rcases hps : (pollLoop cfg.timeoutMs cfg.pollIntervalMs env.ticks sub.status none none).outcome
    with _ | _ | ⟨st, out, er⟩
  · simp [hps, uploadedUrls]
  · simp [hps, uploadedUrls]
  · simp only [hps]
    exact runTerminal_invariants env.fetch env.upload uid fp orig qr _ st out er

/-- The run invariants of a whole `generateImages` invocation: one saved
document per uploaded image (carrying the request's data), at most one
submission call, and a non-empty record list only with an `ok` or
caught-error response. -/
theorem run_invariants (cfg : Config) (env : Env) (req : Req) :
    ((generateImages cfg env req).records.map Rec.imageUrl
        = uploadedUrls env.upload (generateImages cfg env req).base64s)
  ∧ (∀ r ∈ (generateImages cfg env req).records,
        (∃ uid, req.userId = some uid ∧ r.userId = uid) ∧ r.prompt = finalPromptOf req
          ∧ r.queryRewrite = qrOf req)
  ∧ (generateImages cfg env req).submits ≤ 1
  ∧ ((generateImages cfg env req).records = []
      ∨ (∃ urls, (generateImages cfg env req).response = Resp.ok urls)
      ∨ (∃ e, (generateImages cfg env req).response = catchResp e)) := by
  unfold generateImages
  by_cases hp : req.prompt = ""
  · simp [hp, early, uploadedUrls]
  · rcases hu : req.userId with _ | uid
    · simp [hp, hu, early, uploadedUrls]
    · rcases hr : refStep env req with e | orig
      · simp [hp, hu, hr, early, uploadedUrls]
      · cases ht : env.tokenPresent
        · simp [hp, hu, hr, ht, early, uploadedUrls]
        · rcases hs : env.submit with e | sub
          · simp [hp, hu, hr, ht, hs, uploadedUrls]
          · have := runPoll_invariants cfg env uid (finalPromptOf req) orig (qrOf req) sub
            simp only [hp, hu, hr, ht, hs, if_neg, if_true]
            exact ⟨this.1,
              fun r hrr => ⟨⟨uid, rfl, (this.2.1 r hrr).1⟩, (this.2.1 r hrr).2.1,
                (this.2.1 r hrr).2.2.2⟩,
              by simp [this.2.2.1],
              this.2.2.2⟩

/-! ### Branch-reduction lemmas -/

/-- A validated, configured request reaches the submission call once, and the
rest of the run is the post-submission stage. -/
theorem generateImages_submit_ok (cfg : Config) (env : Env) (req : Req)
    (uid : String) (orig : Option String) (sub : Submission)
    (hp : req.prompt ≠ "") (hu : req.userId = some uid)
    (hr : refStep env req = .ok orig) (ht : env.tokenPresent = true)
    (hs : env.submit = .ok sub) :
    generateImages cfg env req
      = runPoll cfg env uid (finalPromptOf req) orig (qrOf req) sub := by
  simp [generateImages, hp, hu, hr, ht, hs]

/-- A validated, configured request whose submission call throws ends in the
catch block with the thrown message; the submission was still issued once. -/
theorem generateImages_submit_error (cfg : Config) (env : Env) (req : Req)
    (uid : String) (orig : Option String) (e : String)
    (hp : req.prompt ≠ "") (hu : req.userId = some uid)
    (hr : refStep env req = .ok orig) (ht : env.tokenPresent = true)
    (hs : env.submit = .error e) :
    generateImages cfg env req = ⟨catchResp e, [], 1, 0, [], 0, []⟩ := by
  simp [generateImages, hp, hu, hr, ht, hs]

/-- Reduction of the post-submission stage on a trace that times out. -/
theorem runPoll_timeout (cfg : Config) (env : Env) (uid fp : String)
    (orig qr : Option String) (sub : Submission) (pre : List Tick) (t : Tick)
    (post : List Tick)
    (hticks : env.ticks = pre ++ t :: post)
    (hst : inProgress sub.status = true)
    (hpre : ∀ u ∈ pre, u.elapsed ≤ cfg.timeoutMs ∧ inProgress u.poll.status = true)
    (ht : cfg.timeoutMs < t.elapsed) :
    runPoll cfg env uid fp orig qr sub
      = ⟨.timeout504, [], 1, pre.length, List.replicate pre.length cfg.pollIntervalMs,
          1, []⟩ := by
  unfold runPoll
  rw [hticks, pollLoop_timeout cfg.timeoutMs cfg.pollIntervalMs pre t post
    sub.status none none hst hpre ht]

/-- Reduction of the post-submission stage on a trace whose
`pre.length`-indexed poll observes a terminal status within the deadline. -/
theorem runPoll_terminal (cfg : Config) (env : Env) (uid fp : String)
    (orig qr : Option String) (sub : Submission) (pre : List Tick) (t : Tick)
    (post : List Tick)
    (hticks : env.ticks = pre ++ t :: post)
    (hst : inProgress sub.status = true)
    (hpre : ∀ u ∈ pre, u.elapsed ≤ cfg.timeoutMs ∧ inProgress u.poll.status = true)
    (hle : t.elapsed ≤ cfg.timeoutMs) (hterm : inProgress t.poll.status = false) :
    runPoll cfg env uid fp orig qr sub
      = runTerminal env.fetch env.upload uid fp orig qr
          ⟨.terminal t.poll.status t.poll.output t.poll.error, pre.length + 1,
            List.replicate (pre.length + 1) cfg.pollIntervalMs, 0⟩
          t.poll.status t.poll.output t.poll.error := by
  unfold runPoll
  rw [hticks, pollLoop_terminal cfg.timeoutMs cfg.pollIntervalMs pre t post
    sub.status none none hst hpre hle hterm]

/-- Reduction of the terminal stage when the prediction succeeded with a
non-empty output list. -/
theorem runTerminal_succeeded (fetch : String → Option String)
    (upload : String → Except String String) (uid fp : String)
    (orig qr : Option String) (ps : PollState) (outs : List String)
    (er : Option String) (hne : outs ≠ []) :
    runTerminal fetch upload uid fp orig qr ps "succeeded" (some outs) er
      = (if (downloadAll fetch outs).isEmpty then
          ⟨.noImageData, [], 1, ps.queries, ps.sleeps, ps.cancels, downloadAll fetch outs⟩
        else runUpload upload uid fp orig qr ps (downloadAll fetch outs)) := by
  simp [runTerminal, hne]

/-- The catch block never answers with the provider-failed response. -/
theorem catchResp_ne_genFailed (e d : String) : catchResp e ≠ Resp.genFailed d := by
  unfold catchResp; split <;> simp

/-- The catch block never answers with the timeout response. -/
theorem catchResp_ne_timeout (e : String) : catchResp e ≠ Resp.timeout504 := by
  unfold catchResp; split <;> simp

/-- The catch block never answers with the success response. -/
theorem catchResp_ne_ok (e : String) (urls : List String) :
    catchResp e ≠ Resp.ok urls := by
  unfold catchResp; split <;> simp

/-- The after-upload stage copies the poll loop's query/sleep counters. -/
theorem runUpload_counters (upload : String → Except String String)
    (uid fp : String) (orig qr : Option String) (ps : PollState) (b64s : List String) :
    (runUpload upload uid fp orig qr ps b64s).sleeps = ps.sleeps
      ∧ (runUpload upload uid fp orig qr ps b64s).queries = ps.queries
      ∧ (runUpload upload uid fp orig qr ps b64s).base64s = b64s := by
  rcases h : uploadLoop upload uid fp orig qr b64s with ⟨urls, recs, ab⟩
  cases ab <;> simp [runUpload, h]

/-- The after-poll stage copies the poll loop's query/sleep counters. -/
theorem runTerminal_counters (fetch : String → Option String)
    (upload : String → Except String String) (uid fp : String)
    (orig qr : Option String) (ps : PollState) (st : String)
    (out : Option (List String)) (er : Option String) :
    (runTerminal fetch upload uid fp orig qr ps st out er).sleeps = ps.sleeps
      ∧ (runTerminal fetch upload uid fp orig qr ps st out er).queries = ps.queries := by
  unfold runTerminal
  by_cases h1 : (st != "succeeded" || (out.getD []).isEmpty) = true
  · simp [h1]
  · simp only [h1]
    by_cases h2 : (downloadAll fetch (out.getD [])).isEmpty = true
    · simp [h2]
    · have := runUpload_counters upload uid fp orig qr ps (downloadAll fetch (out.getD []))
      simp only [h2, Bool.false_eq_true, if_neg, if_false]
      exact ⟨this.1, this.2.1⟩

/-- Every sleep of every `generateImages` invocation lasts exactly the
configured fixed poll interval — one sleep per status query, no backoff. -/
theorem run_sleeps (cfg : Config) (env : Env) (req : Req) :
    (generateImages cfg env req).sleeps
      = List.replicate (generateImages cfg env req).queries cfg.pollIntervalMs := by
  unfold generateImages
  by_cases hp : req.prompt = ""
  · simp [hp, early]
  · rcases hu : req.userId with _ | uid
    · simp [hp, hu, early]
    · rcases hr : refStep env req with e | orig
      · simp [hp, hu, hr, early]
      · cases ht : env.tokenPresent
        · simp [hp, hu, hr, ht, early]
        · rcases hs : env.submit with e | sub
          · simp [hp, hu, hr, ht, hs]
          · simp only [hp, hu, hr, ht, hs, if_neg, if_true]
            unfold runPoll
            have hsl := pollLoop_sleeps cfg.timeoutMs cfg.pollIntervalMs env.ticks
              sub.status none none
            rcases hps : (pollLoop cfg.timeoutMs cfg.pollIntervalMs env.ticks
                sub.status none none).outcome with _ | _ | ⟨st, out, er⟩
            · simp [hps, hsl]
            · simp [hps, hsl]
            · simp only [hps]
              have := runTerminal_counters env.fetch env.upload uid (finalPromptOf req)
                orig (qrOf req)
                (pollLoop cfg.timeoutMs cfg.pollIntervalMs env.ticks sub.status none none)
                st out er
              simp [this.1, this.2, hsl]

/-- A filterMap whose function succeeds everywhere keeps the length. -/
theorem length_filterMap_all_isSome {α β : Type} (f : α → Option β) (l : List α)
    (h : ∀ a ∈ l, (f a).isSome = true) : (l.filterMap f).length = l.length := by
  induction l with
  | nil => rfl
  | cons a l ih =>
    obtain ⟨b, hb⟩ := Option.isSome_iff_exists.mp (h a (by simp))
    simp [List.filterMap_cons, hb, ih (fun x hx => h x (by simp [hx]))]

/-- When every output URL downloads and uploads successfully, the uploaded
URLs are exactly the expected stored location of each output, in output
order. -/
theorem uploadedUrls_downloadAll (env : Env) (outs : List String)
    (h : ∀ u ∈ outs, (expectedUrl env u).isSome = true) :
    uploadedUrls env.upload (downloadAll env.fetch outs)
      = outs.filterMap (expectedUrl env) := by
  induction outs with
  | nil => rfl
  | cons u rest ih =>
    have hu := h u (by simp)
    have hrest := ih (fun x hx => h x (by simp [hx]))
    rcases hf : env.fetch u with _ | b
    · rw [Option.isSome_iff_exists] at hu
      obtain ⟨v, hv⟩ := hu
      rw [expectedUrl, hf] at hv
      cases hv
    · rcases hup : env.upload (uploadSrc (dataUri b)) with e | v
      · rw [Option.isSome_iff_exists] at hu
        obtain ⟨w, hw⟩ := hu
        rw [expectedUrl, hf] at hw
        simp [hup, Except.toOption] at hw
      · simp [downloadAll, List.filterMap_cons, hf, uploadedUrls, hup, expectedUrl,
          Except.toOption, hrest]
        simpa [downloadAll] using hrest

/-- When every source of the part_007 store loop materializes and uploads
successfully, the loop saves exactly one document per source, in source
order, at the expected stored locations. -/
theorem orStoreLoop_all_ok (fetch upload : String → Except String String)
    (uid fp : String) (orig qr : Option String) (srcs : List String)
    (h : ∀ s ∈ srcs, (orExpectedUrl fetch upload s).isSome = true) :
    (orStoreLoop fetch upload uid fp orig qr srcs).2.1.map Rec.imageUrl
        = srcs.filterMap (orExpectedUrl fetch upload)
      ∧ (orStoreLoop fetch upload uid fp orig qr srcs).2.1.length = srcs.length := by
  induction srcs with
  | nil => simp [orStoreLoop]
  | cons s rest ih =>
    have hs := h s (by simp)
    have hrest := ih (fun x hx => h x (by simp [hx]))
    rcases hb : (materializeSrc fetch s).bind (fun b => upload (dataUri b)) with e | v
    · rw [Option.isSome_iff_exists] at hs
      obtain ⟨w, hw⟩ := hs
      rw [orExpectedUrl, hb] at hw
      cases hw
    · simp [orStoreLoop, hb, List.filterMap_cons, orExpectedUrl,
        Except.toOption, hrest.1, hrest.2]

/-- Reduction of a whole validated run whose poll ends with status
`"succeeded"` and a non-empty output list. -/
theorem generateImages_succeeded (cfg : Config) (env : Env) (req : Req)
    (uid : String) (orig : Option String) (sub : Submission)
    (pre : List Tick) (t : Tick) (post : List Tick) (outs : List String)
    (hp : req.prompt ≠ "") (hu : req.userId = some uid)
    (hr : refStep env req = .ok orig) (ht : env.tokenPresent = true)
    (hs : env.submit = .ok sub) (hst : inProgress sub.status = true)
    (hticks : env.ticks = pre ++ t :: post)
    (hpre : ∀ u ∈ pre, u.elapsed ≤ cfg.timeoutMs ∧ inProgress u.poll.status = true)
    (hle : t.elapsed ≤ cfg.timeoutMs)
    (hsucc : t.poll.status = "succeeded") (hout : t.poll.output = some outs)
    (hne : outs ≠ []) :
    generateImages cfg env req
      = (if (downloadAll env.fetch outs).isEmpty then
          ⟨.noImageData, [], 1, pre.length + 1,
            List.replicate (pre.length + 1) cfg.pollIntervalMs, 0,
            downloadAll env.fetch outs⟩
        else runUpload env.upload uid (finalPromptOf req) orig (qrOf req)
          ⟨.terminal "succeeded" (some outs) t.poll.error, pre.length + 1,
            List.replicate (pre.length + 1) cfg.pollIntervalMs, 0⟩
          (downloadAll env.fetch outs)) := by
  have hterm : inProgress t.poll.status = false := by rw [hsucc]; rfl
  rw [generateImages_submit_ok cfg env req uid orig sub hp hu hr ht hs,
    runPoll_terminal cfg env uid (finalPromptOf req) orig (qrOf req) sub
      pre t post hticks hst hpre hle hterm, hsucc, hout,
    runTerminal_succeeded env.fetch env.upload uid (finalPromptOf req) orig (qrOf req)
      _ outs t.poll.error hne]

/-! ### Claim theorems -/

/-- C1: For every `generateImages` invocation, exactly one `Thumbnail`
document is saved per image that is successfully materialized — downloaded
into `base64s` and then uploaded to Cloudinary (the saved documents are, in
order, exactly one per element of the upload-success segment of the
downloaded images) — and an invocation ending in the provider-failed branch
(`genFailed`) or in the timeout branch (`timeout504`) saves zero
documents. -/
theorem claim_C1_one_record_per_materialized (cfg : Config) (env : Env) (req : Req) :
    (∀ d, (generateImages cfg env req).response = Resp.genFailed d →
        (generateImages cfg env req).records = [])
  ∧ ((generateImages cfg env req).response = Resp.timeout504 →
        (generateImages cfg env req).records = [])
  ∧ (generateImages cfg env req).records.map Rec.imageUrl
      = uploadedUrls env.upload (generateImages cfg env req).base64s := by
  refine ⟨?_, ?_, (run_invariants cfg env req).1⟩
  · intro d hd
    rcases (run_invariants cfg env req).2.2.2 with h | ⟨urls, h⟩ | ⟨e, h⟩
    · exact h
    · rw [hd] at h; cases h
    · rw [hd] at h; exact absurd h.symm (catchResp_ne_genFailed e d)
  · intro hd
    rcases (run_invariants cfg env req).2.2.2 with h | ⟨urls, h⟩ | ⟨e, h⟩
    · exact h
    · rw [hd] at h; cases h
    · rw [hd] at h; exact absurd h.symm (catchResp_ne_timeout e)

/-- C1 witness: a timed-out run and a provider-failed run save zero
documents; a successful run's saved documents are exactly the uploaded
images. -/
theorem claim_C1_witness :
    (generateImages cfg0 envTimeout reqOk).records = []
  ∧ (generateImages cfg0 envFail reqOk).records = []
  ∧ (generateImages cfg0 envOk reqOk).records.map Rec.imageUrl
      = uploadedUrls envOk.upload (generateImages cfg0 envOk reqOk).base64s :=
  ⟨(claim_C1_one_record_per_materialized cfg0 envTimeout reqOk).2.1 (by decide),
   (claim_C1_one_record_per_materialized cfg0 envFail reqOk).1 "NSFW" (by decide),
   (claim_C1_one_record_per_materialized cfg0 envOk reqOk).2.2⟩

/-- C2: When a polled prediction never reaches a terminal status, the first
deadline check whose wall-clock time since submission exceeds the configured
timeout stops the loop: no status query is issued at or after that check
(the run equals the run on the trace truncated there), exactly one
best-effort cancel request is issued whose own outcome does not affect the
run at all, and the caller receives the distinct 504 timeout response.  The
deadline compares elapsed-since-submission directly against the timeout, so
a single long tick (arbitrarily large `t.elapsed`) cannot extend it. -/
theorem claim_C2_timeout_is_hard_deadline (cfg : Config) (env : Env) (req : Req)
    (uid : String) (orig : Option String) (sub : Submission)
    (pre : List Tick) (t : Tick) (post : List Tick)
    (hp : req.prompt ≠ "") (hu : req.userId = some uid)
    (hr : refStep env req = .ok orig) (ht : env.tokenPresent = true)
    (hs : env.submit = .ok sub) (hst : inProgress sub.status = true)
    (hticks : env.ticks = pre ++ t :: post)
    (hpre : ∀ u ∈ pre, u.elapsed ≤ cfg.timeoutMs ∧ inProgress u.poll.status = true)
    (hto : cfg.timeoutMs < t.elapsed) :
    (generateImages cfg env req).response = Resp.timeout504
  ∧ (generateImages cfg env req).cancels = 1
  ∧ (generateImages cfg env req).queries = pre.length
  ∧ (generateImages cfg env req).records = []
  ∧ (∀ c, generateImages cfg (setCancel env c) req = generateImages cfg env req)
  ∧ generateImages cfg (setTicks env (pre ++ [t])) req = generateImages cfg env req := by
  rw [generateImages_submit_ok cfg env req uid orig sub hp hu hr ht hs,
    runPoll_timeout cfg env uid (finalPromptOf req) orig (qrOf req) sub
      pre t post hticks hst hpre hto]
  refine ⟨rfl, rfl, rfl, rfl, fun c => ?_, ?_⟩
  · rw [generateImages_submit_ok cfg (setCancel env c) req uid orig sub hp hu hr ht hs,
      runPoll_timeout cfg (setCancel env c) uid (finalPromptOf req) orig (qrOf req) sub
        pre t post hticks hst hpre hto]
  · rw [generateImages_submit_ok cfg (setTicks env (pre ++ [t])) req uid orig sub
        hp hu hr ht hs,
      runPoll_timeout cfg (setTicks env (pre ++ [t])) uid (finalPromptOf req) orig
        (qrOf req) sub pre t [] rfl hst hpre hto]

/-- C2 witness: a trace whose very first deadline check reads 200000 ms
elapsed against a 120000 ms timeout answers 504 with one cancel, zero status
queries and zero saved documents. -/
theorem claim_C2_witness :
    (generateImages cfg0 envTimeout reqOk).response = Resp.timeout504
  ∧ (generateImages cfg0 envTimeout reqOk).cancels = 1
  ∧ (generateImages cfg0 envTimeout reqOk).queries = 0
  ∧ (generateImages cfg0 envTimeout reqOk).records = [] := by
  have h := claim_C2_timeout_is_hard_deadline cfg0 envTimeout reqOk "user1" none
    ⟨"id1", "starting"⟩ [] ⟨200000, ⟨"processing", none, none⟩⟩ []
    (by decide) rfl rfl rfl rfl (by decide) rfl (by simp) (by decide)
  exact ⟨h.1, h.2.1, h.2.2.1, h.2.2.2.1⟩

/-- C6: While the observed status is in progress, each loop iteration sleeps
exactly the fixed configured interval before its status query (universally:
the sleep list of every run is `queries` copies of `pollIntervalMs` — no
backoff), and once a terminal status is observed at the poll after `pre`, the
run issues exactly `pre.length + 1` status queries and never touches the
trace beyond that poll (the run equals the run on the truncated trace). -/
theorem claim_C6_fixed_interval_stops_at_terminal (cfg : Config) (env : Env)
    (req : Req) (uid : String) (orig : Option String) (sub : Submission)
    (pre : List Tick) (t : Tick) (post : List Tick)
    (hp : req.prompt ≠ "") (hu : req.userId = some uid)
    (hr : refStep env req = .ok orig) (ht : env.tokenPresent = true)
    (hs : env.submit = .ok sub) (hst : inProgress sub.status = true)
    (hticks : env.ticks = pre ++ t :: post)
    (hpre : ∀ u ∈ pre, u.elapsed ≤ cfg.timeoutMs ∧ inProgress u.poll.status = true)
    (hle : t.elapsed ≤ cfg.timeoutMs) (hterm : inProgress t.poll.status = false) :
    (∀ (cfg' : Config) (env' : Env) (req' : Req),
        (generateImages cfg' env' req').sleeps
          = List.replicate (generateImages cfg' env' req').queries cfg'.pollIntervalMs)
  ∧ (generateImages cfg env req).queries = pre.length + 1
  ∧ generateImages cfg (setTicks env (pre ++ [t])) req = generateImages cfg env req := by
  refine ⟨run_sleeps, ?_, ?_⟩
  · rw [generateImages_submit_ok cfg env req uid orig sub hp hu hr ht hs,
      runPoll_terminal cfg env uid (finalPromptOf req) orig (qrOf req) sub
        pre t post hticks hst hpre hle hterm]
    exact (runTerminal_counters env.fetch env.upload uid (finalPromptOf req) orig
      (qrOf req)
      ⟨.terminal t.poll.status t.poll.output t.poll.error, pre.length + 1,
        List.replicate (pre.length + 1) cfg.pollIntervalMs, 0⟩
      t.poll.status t.poll.output t.poll.error).2
  · rw [generateImages_submit_ok cfg (setTicks env (pre ++ [t])) req uid orig sub
        hp hu hr ht hs,
      runPoll_terminal cfg (setTicks env (pre ++ [t])) uid (finalPromptOf req) orig
        (qrOf req) sub pre t [] rfl hst hpre hle hterm,
      generateImages_submit_ok cfg env req uid orig sub hp hu hr ht hs,
      runPoll_terminal cfg env uid (finalPromptOf req) orig (qrOf req) sub
        pre t post hticks hst hpre hle hterm]
    rfl

/-- C6 witness: the happy-path run polls once after one 2000 ms sleep. -/
theorem claim_C6_witness :
    (generateImages cfg0 envOk reqOk).queries = 1
  ∧ (generateImages cfg0 envOk reqOk).sleeps = [2000] := by
  have h := claim_C6_fixed_interval_stops_at_terminal cfg0 envOk reqOk "user1" none
    ⟨"id1", "starting"⟩ [] ⟨1000, ⟨"succeeded", some ["u1", "u2"], none⟩⟩ []
    (by decide) rfl rfl rfl rfl (by decide) rfl (by simp) (by decide) (by decide)
  refine ⟨h.2.1, ?_⟩
  rw [h.1 cfg0 envOk reqOk, h.2.1]
  rfl

/-- C4: On a successful prediction whose output is a list of remote URLs,
each URL fetch is independent: the downloaded list is exactly the
order-preserving filterMap of the fetch oracle over the outputs, so one
failed fetch drops only its own entry and leaves every other fetched image
in place; and if every fetch fails, the run answers the empty-result error
(`noImageData`, the 500 "No image data received from Replicate" body) and
stores nothing. -/
theorem claim_C4_independent_url_fetches (cfg : Config) (env : Env) (req : Req)
    (uid : String) (orig : Option String) (sub : Submission)
    (pre : List Tick) (t : Tick) (post : List Tick) (outs : List String)
    (hp : req.prompt ≠ "") (hu : req.userId = some uid)
    (hr : refStep env req = .ok orig) (ht : env.tokenPresent = true)
    (hs : env.submit = .ok sub) (hst : inProgress sub.status = true)
    (hticks : env.ticks = pre ++ t :: post)
    (hpre : ∀ u ∈ pre, u.elapsed ≤ cfg.timeoutMs ∧ inProgress u.poll.status = true)
    (hle : t.elapsed ≤ cfg.timeoutMs)
    (hsucc : t.poll.status = "succeeded") (hout : t.poll.output = some outs)
    (hne : outs ≠ []) :
    (generateImages cfg env req).base64s
        = outs.filterMap (fun u => (env.fetch u).map dataUri)
  ∧ ((∀ u ∈ outs, env.fetch u = none) →
      (generateImages cfg env req).response = Resp.noImageData
        ∧ (generateImages cfg env req).records = []) := by
  rw [generateImages_succeeded cfg env req uid orig sub pre t post outs
    hp hu hr ht hs hst hticks hpre hle hsucc hout hne]
  constructor
  · by_cases hemp : (downloadAll env.fetch outs).isEmpty = true
    · rw [if_pos hemp]; rfl
    · rw [if_neg hemp,
        (runUpload_counters env.upload uid (finalPromptOf req) orig (qrOf req)
          _ (downloadAll env.fetch outs)).2.2]
      rfl
  · intro hall
    have hdl : downloadAll env.fetch outs = [] := by
      rw [downloadAll, List.filterMap_eq_nil_iff]
      intro u hu
      rw [hall u hu]
      rfl
    simp [hdl]

/-- C4 witness: with every download failing the run stores nothing and
answers the empty-result error; on the happy path the downloaded list is the
filterMap of the fetch oracle over the two output URLs. -/
theorem claim_C4_witness :
    (generateImages cfg0 envNoFetch reqOk).response = Resp.noImageData
  ∧ (generateImages cfg0 envNoFetch reqOk).records = []
  ∧ (generateImages cfg0 envOk reqOk).base64s
      = ["u1", "u2"].filterMap (fun u => (envOk.fetch u).map dataUri) := by
  have h1 := (claim_C4_independent_url_fetches cfg0 envNoFetch reqOk "user1" none
    ⟨"id1", "starting"⟩ [] ⟨1000, ⟨"succeeded", some ["u1", "u2"], none⟩⟩ []
    ["u1", "u2"] (by decide) rfl rfl rfl rfl (by decide) rfl (by simp) (by decide)
    rfl rfl (by decide)).2 (by intro u _; rfl)
  have h2 := (claim_C4_independent_url_fetches cfg0 envOk reqOk "user1" none
    ⟨"id1", "starting"⟩ [] ⟨1000, ⟨"succeeded", some ["u1", "u2"], none⟩⟩ []
    ["u1", "u2"] (by decide) rfl rfl rfl rfl (by decide) rfl (by simp) (by decide)
    rfl rfl (by decide)).1
  exact ⟨h1.1, h1.2, h2⟩

/-- C5: On a successful prediction whose images all materialize (every output
URL downloads and uploads successfully), the run saves exactly one document
per provider image, and the order of the saved documents equals the
provider's output order — the stored location list is the pointwise image of
the output list.  The same one-per-image, order-preserving property holds
for the part_007 (OpenRouter) store loop over its mixed inline-data-URI and
remote-URL source list. -/
theorem claim_C5_one_record_per_image_in_order (cfg : Config) (env : Env) (req : Req)
    (uid : String) (orig : Option String) (sub : Submission)
    (pre : List Tick) (t : Tick) (post : List Tick) (outs : List String)
    (hp : req.prompt ≠ "") (hu : req.userId = some uid)
    (hr : refStep env req = .ok orig) (ht : env.tokenPresent = true)
    (hs : env.submit = .ok sub) (hst : inProgress sub.status = true)
    (hticks : env.ticks = pre ++ t :: post)
    (hpre : ∀ u ∈ pre, u.elapsed ≤ cfg.timeoutMs ∧ inProgress u.poll.status = true)
    (hle : t.elapsed ≤ cfg.timeoutMs)
    (hsucc : t.poll.status = "succeeded") (hout : t.poll.output = some outs)
    (hne : outs ≠ [])
    (hall : ∀ u ∈ outs, (expectedUrl env u).isSome = true) :
    ((generateImages cfg env req).records.map Rec.imageUrl
        = outs.filterMap (expectedUrl env)
      ∧ (generateImages cfg env req).records.length = outs.length)
  ∧ (∀ (fetch upload : String → Except String String) (uid' fp' : String)
        (orig' qr' : Option String) (srcs : List String),
      (∀ s ∈ srcs, (orExpectedUrl fetch upload s).isSome = true) →
      (orStoreLoop fetch upload uid' fp' orig' qr' srcs).2.1.map Rec.imageUrl
          = srcs.filterMap (orExpectedUrl fetch upload)
        ∧ (orStoreLoop fetch upload uid' fp' orig' qr' srcs).2.1.length = srcs.length) := by
  refine ⟨?_, fun fetch upload uid' fp' orig' qr' srcs h =>
    orStoreLoop_all_ok fetch upload uid' fp' orig' qr' srcs h⟩
  have hmap := (run_invariants cfg env req).1
  have hexp : (generateImages cfg env req).records.map Rec.imageUrl
      = outs.filterMap (expectedUrl env) := by
    rw [hmap]
    have hb64 : (generateImages cfg env req).base64s = downloadAll env.fetch outs := by
      rw [generateImages_succeeded cfg env req uid orig sub pre t post outs
        hp hu hr ht hs hst hticks hpre hle hsucc hout hne]
      by_cases hemp : (downloadAll env.fetch outs).isEmpty = true
      · simp [hemp]
      · simp only [hemp, Bool.false_eq_true, if_false, if_neg]
        exact (runUpload_counters env.upload uid (finalPromptOf req) orig (qrOf req)
          _ (downloadAll env.fetch outs)).2.2
    rw [hb64]
    exact uploadedUrls_downloadAll env outs hall
  refine ⟨hexp, ?_⟩
  have := congrArg List.length hexp
  rw [List.length_map] at this
  rw [this]
  exact length_filterMap_all_isSome (expectedUrl env) outs hall

/-- C5 witness: the happy-path run stores one document per output URL, in
output order; the part_007 loop on one inline and one remote source saves
two documents in source order. -/
theorem claim_C5_witness :
    (generateImages cfg0 envOk reqOk).records.map Rec.imageUrl
        = ["cdn/data:image/png;base64,AAA", "cdn/data:image/png;base64,BBB"]
  ∧ (generateImages cfg0 envOk reqOk).records.length = 2
  ∧ (orStoreLoop orFetch orUp "u" "p" none none orSrcs).2.1.map Rec.imageUrl
      = ["cdn/data:image/png;base64,XYZ", "cdn/data:image/png;base64,CCC"] := by
  have h := claim_C5_one_record_per_image_in_order cfg0 envOk reqOk "user1" none
    ⟨"id1", "starting"⟩ [] ⟨1000, ⟨"succeeded", some ["u1", "u2"], none⟩⟩ []
    ["u1", "u2"] (by decide) rfl rfl rfl rfl (by decide) rfl (by simp) (by decide)
    rfl rfl (by decide) (by decide)
  exact ⟨h.1.1.trans (by decide), h.1.2, ((h.2 orFetch orUp "u" "p" none none orSrcs
    (by decide)).1).trans (by decide)⟩

/-- C3 counterexample: a run in which the first image is durably stored and
the upload of the second image then throws does NOT return the partial list
of stored documents — the caller receives a 500 `internalError` response,
even though exactly one document was stored. -/
theorem claim_C3_counterexample :
    (generateImages cfg0 envAbort reqOk).records.length = 1
  ∧ (generateImages cfg0 envAbort reqOk).response = Resp.internalError "boom" :=
  ⟨by decide, by decide⟩

/-- C3 (amended): When a later image's upload throws after earlier images in
the same request were durably stored, the stored documents are preserved in
the database — exactly the successful upload segment, not rolled back — but
the invocation's response is the catch-block 500 error carrying the thrown
message, never the partial success list; the partial work is visible only in
storage, not in the response. -/
theorem claim_C3_amended_partial_kept_but_error_returned (cfg : Config) (env : Env)
    (req : Req) (uid : String) (orig : Option String) (sub : Submission)
    (pre : List Tick) (t : Tick) (post : List Tick) (outs : List String) (e : String)
    (hp : req.prompt ≠ "") (hu : req.userId = some uid)
    (hr : refStep env req = .ok orig) (ht : env.tokenPresent = true)
    (hs : env.submit = .ok sub) (hst : inProgress sub.status = true)
    (hticks : env.ticks = pre ++ t :: post)
    (hpre : ∀ u ∈ pre, u.elapsed ≤ cfg.timeoutMs ∧ inProgress u.poll.status = true)
    (hle : t.elapsed ≤ cfg.timeoutMs)
    (hsucc : t.poll.status = "succeeded") (hout : t.poll.output = some outs)
    (hne : outs ≠ [])
    (habort : (uploadLoop env.upload uid (finalPromptOf req) orig (qrOf req)
        (downloadAll env.fetch outs)).2.2 = some e) :
    (generateImages cfg env req).response = catchResp e
  ∧ (∀ urls, (generateImages cfg env req).response ≠ Resp.ok urls)
  ∧ (generateImages cfg env req).records.map Rec.imageUrl
      = uploadedUrls env.upload (downloadAll env.fetch outs) := by
  have hdl : (downloadAll env.fetch outs).isEmpty ≠ true := by
    intro hemp
    rw [List.isEmpty_iff] at hemp
    rw [hemp] at habort
    simp [uploadLoop] at habort
  rw [generateImages_succeeded cfg env req uid orig sub pre t post outs
    hp hu hr ht hs hst hticks hpre hle hsucc hout hne]
  simp only [hdl, Bool.false_eq_true, if_false, if_neg]
  rcases hul : uploadLoop env.upload uid (finalPromptOf req) orig (qrOf req)
      (downloadAll env.fetch outs) with ⟨urls, recs, ab⟩
  rw [hul] at habort
  simp at habort
  subst habort
  have hm := uploadLoop_map_imageUrl env.upload uid (finalPromptOf req) orig (qrOf req)
    (downloadAll env.fetch outs)
  rw [hul] at hm
  exact ⟨by simp [runUpload, hul], fun urls' => by simp [runUpload, hul, catchResp_ne_ok],
    by simp [runUpload, hul]; exact hm⟩

/-- C3 witness (for the amended claim): in the concrete aborting run the
response is the caught `"boom"` error while the database still holds the
one successfully stored document. -/
theorem claim_C3_witness :
    (generateImages cfg0 envAbort reqOk).response = catchResp "boom"
  ∧ (generateImages cfg0 envAbort reqOk).records.map Rec.imageUrl = ["url1"] := by
  have h := claim_C3_amended_partial_kept_but_error_returned cfg0 envAbort reqOk
    "user1" none ⟨"id1", "starting"⟩ [] ⟨1000, ⟨"succeeded", some ["u1", "u2"], none⟩⟩
    [] ["u1", "u2"] "boom" (by decide) rfl rfl rfl rfl (by decide) rfl (by simp)
    (by decide) rfl rfl (by decide) (by decide)
  exact ⟨h.1, h.2.2.trans (by decide)⟩

/-- C7: Every `generateImages` invocation issues at most one request to the
provider's submission endpoint — exactly one when the prompt, auth,
reference-upload and configuration checks pass — and when the submission
call throws, the error propagates through the catch block with no
resubmission inside the invocation. -/
theorem claim_C7_single_submission (cfg : Config) (env : Env) (req : Req) :
    (generateImages cfg env req).submits ≤ 1
  ∧ ((req.prompt ≠ "" ∧ (∃ uid, req.userId = some uid)
        ∧ (∃ o, refStep env req = .ok o) ∧ env.tokenPresent = true) →
      (generateImages cfg env req).submits = 1)
  ∧ (∀ e, env.submit = .error e → req.prompt ≠ "" → (∃ uid, req.userId = some uid) →
      (∃ o, refStep env req = .ok o) → env.tokenPresent = true →
      (generateImages cfg env req).submits = 1
        ∧ (generateImages cfg env req).response = catchResp e) := by
  refine ⟨(run_invariants cfg env req).2.2.1, ?_, ?_⟩
  · rintro ⟨hp, ⟨uid, hu⟩, ⟨o, hr⟩, ht⟩
    rcases hs : env.submit with e | sub
    · rw [generateImages_submit_error cfg env req uid o e hp hu hr ht hs]
    · rw [generateImages_submit_ok cfg env req uid o sub hp hu hr ht hs]
      exact (runPoll_invariants cfg env uid (finalPromptOf req) o (qrOf req) sub).2.2.1
  · rintro e hs hp ⟨uid, hu⟩ ⟨o, hr⟩ ht
    rw [generateImages_submit_error cfg env req uid o e hp hu hr ht hs]
    exact ⟨rfl, rfl⟩

/-- C7 witness: the happy-path run submits exactly once, and a run whose
submission throws still submits exactly once and surfaces the caught
error. -/
theorem claim_C7_witness :
    (generateImages cfg0 envOk reqOk).submits = 1
  ∧ (generateImages cfg0 envSubmitErr reqOk).submits = 1
  ∧ (generateImages cfg0 envSubmitErr reqOk).response = catchResp "ECONNRESET" := by
  refine ⟨(claim_C7_single_submission cfg0 envOk reqOk).2.1
      ⟨by decide, ⟨"user1", rfl⟩, ⟨none, rfl⟩, rfl⟩, ?_⟩
  have := (claim_C7_single_submission cfg0 envSubmitErr reqOk).2.2 "ECONNRESET" rfl
    (by decide) ⟨"user1", rfl⟩ ⟨none, rfl⟩ rfl
  exact this

/-- C10: Every `Thumbnail` document saved by a `generateImages` invocation
persists `queryRewrite || prompt` in its `prompt` field: when a non-empty
rewritten prompt is supplied it is the rewritten prompt (and the rewrite is
also stored in `queryRewrite`); the user's original prompt text is stored
only when no rewrite is supplied. -/
theorem claim_C10_rewritten_prompt_persisted (cfg : Config) (env : Env) (req : Req) :
    (req.queryRewrite ≠ "" →
      ∀ r ∈ (generateImages cfg env req).records,
        r.prompt = req.queryRewrite ∧ r.queryRewrite = some req.queryRewrite)
  ∧ (req.queryRewrite = "" →
      ∀ r ∈ (generateImages cfg env req).records,
        r.prompt = req.prompt ∧ r.queryRewrite = none) := by
  constructor <;> intro h r hr <;>
    have hrr := (run_invariants cfg env req).2.1 r hr <;>
    rw [hrr.2.1, hrr.2.2] <;> simp [finalPromptOf, qrOf, h]

/-- C10 witness: with rewrite `"rw"` over prompt `"p"` the saved documents
carry prompt `"rw"`; with no rewrite they carry `"p"`. -/
theorem claim_C10_witness :
    ((⟨"user1", "rw", "cdn/data:image/png;base64,AAA", none, some "rw"⟩ : Rec).prompt = "rw"
      ∧ (⟨"user1", "rw", "cdn/data:image/png;base64,AAA", none, some "rw"⟩ : Rec).queryRewrite
          = some "rw")
  ∧ ((⟨"user1", "p", "cdn/data:image/png;base64,AAA", none, none⟩ : Rec).prompt = "p"
      ∧ (⟨"user1", "p", "cdn/data:image/png;base64,AAA", none, none⟩ : Rec).queryRewrite
          = none) :=
  ⟨(claim_C10_rewritten_prompt_persisted cfg0 envOk reqOk).1 (by decide) _ (by decide),
   (claim_C10_rewritten_prompt_persisted cfg0 envOk reqNoRw).2 (by decide) _ (by decide)⟩

/-- An element not matched by the predicate survives `eraseP`. -/
theorem mem_eraseP_of_pred_false {α : Type} (p : α → Bool) (l : List α) (t : α)
    (ht : t ∈ l) (hp : p t = false) : t ∈ l.eraseP p := by
  induction l with
  | nil => cases ht
  | cons a l ih =>
    rw [List.eraseP_cons]
    cases hpa : p a
    · simp only [cond_false]
      rcases List.mem_cons.mp ht with rfl | hmem
      · exact List.mem_cons_self _ _
      · exact List.mem_cons_of_mem a (ih hmem)
    · simp only [cond_true]
      rcases List.mem_cons.mp ht with rfl | hmem
      · rw [hp] at hpa; cases hpa
      · exact hmem

/-- C8: `deleteThumbnail` looks the thumbnail up by id AND authenticated
owner: a request naming a thumbnail owned by a different user (or no
thumbnail at all) receives the not-found response and leaves the collection
unchanged, and (given the collection's MongoDB-guaranteed unique ids) any
document removed by a delete request has the request's id and is owned by
the requesting user. -/
theorem claim_C8_delete_scoped_to_owner (db : List Thumb) (tid uid : String)
    (hnd : (db.map Thumb.id).Nodup) :
    ((∀ t ∈ db, t.id = tid → t.userId ≠ uid) →
        deleteThumbnail db (some uid) tid = (DelResp.notFound, db))
  ∧ (∀ t ∈ db, t ∉ (deleteThumbnail db (some uid) tid).2 →
        t.id = tid ∧ t.userId = uid) := by
  constructor
  · intro h
    have hnone : dbFindOne db tid uid = none := by
      rw [dbFindOne, List.find?_eq_none]
      intro x hx
      simp only [Bool.and_eq_true, beq_iff_eq, not_and]
      intro hid
      exact h x hx hid
    rw [deleteThumbnail, hnone]
  · intro t htdb htnot
    rcases hf : dbFindOne db tid uid with _ | t0
    · rw [deleteThumbnail, hf] at htnot
      exact absurd htdb htnot
    · have hp0 := List.find?_some hf
      simp only [Bool.and_eq_true, beq_iff_eq] at hp0
      have hmem0 : t0 ∈ db := List.mem_of_find?_eq_some hf
      rw [deleteThumbnail, hf] at htnot
      have hpt : (t.id == tid) = true := by
        by_contra hc
        exact htnot (mem_eraseP_of_pred_false _ db t htdb (Bool.not_eq_true _ ▸ hc))
      have htid : t.id = tid := beq_iff_eq.mp hpt
      have : t = t0 := List.inj_on_of_nodup_map hnd htdb hmem0 (by rw [htid, hp0.1])
      exact ⟨htid, this ▸ hp0.2⟩

/-- C8 witness: in a two-user collection, deleting thumbnail `"a"` (owned by
`"u1"`) as user `"u2"` answers not-found and changes nothing, while deleting
it as `"u1"` removes exactly a document with id `"a"` owned by `"u1"`. -/
theorem claim_C8_witness :
    deleteThumbnail dbW (some "u2") "a" = (DelResp.notFound, dbW)
  ∧ (⟨"a", "u1", "p1", "i1", 5⟩ : Thumb).id = "a"
      ∧ (⟨"a", "u1", "p1", "i1", 5⟩ : Thumb).userId = "u1" :=
  ⟨(claim_C8_delete_scoped_to_owner dbW "a" "u2" (by decide)).1 (by decide),
   (claim_C8_delete_scoped_to_owner dbW "a" "u1" (by decide)).2
     ⟨"a", "u1", "p1", "i1", 5⟩ (by decide) (by decide)⟩

/-- C9: `getUserThumbnails` returns, for an authenticated user, only
thumbnails owned by that user, sorted by creation time descending (newest
first), and never more than 50 documents however many the user owns. -/
theorem claim_C9_own_newest_first_at_most_50 (db : List Thumb) (uid : String) :
    ((getUserThumbnails db (some uid)).getD []).all (fun t => t.userId == uid) = true
  ∧ ((getUserThumbnails db (some uid)).getD []).length ≤ 50
  ∧ List.Pairwise (fun a b => b.createdAt ≤ a.createdAt)
      ((getUserThumbnails db (some uid)).getD []) := by
  refine ⟨?_, ?_, ?_⟩
  · rw [List.all_eq_true]
    intro t htm
    simp only [getUserThumbnails, Option.getD_some] at htm
    have := List.mem_mergeSort.mp (List.mem_of_mem_take htm)
    exact (List.mem_filter.mp this).2
  · exact List.length_take_le 50 _
  · have hsorted := List.sorted_mergeSort
      (fun a b c (hab : newerFirst a b = true) (hbc : newerFirst b c = true) => by
        simp only [newerFirst, decide_eq_true_eq] at hab hbc ⊢
        omega)
      (fun a b => by
        simp only [newerFirst, Bool.or_eq_true, decide_eq_true_eq]
        omega)
      (db.filter (fun t => t.userId == uid))
    have := List.Pairwise.sublist (List.take_sublist 50 _) hsorted
    exact this.imp (fun hab => by
      simp only [newerFirst, decide_eq_true_eq] at hab
      exact hab)

end ThumbnailAI
